import Mathlib

/-!
Verification of the dumpSTR filtering and statistics engine
(`src/scripts/dumpSTR/dumpSTR.py`) against its specification.

The Python program is embedded shallowly: per-call and per-locus data are
explicit Lean structures, the per-record mutation of `sample_info` /
`loc_info` dictionaries becomes explicit state passing, and the record loop
of `main` becomes structural recursion over a list of records.  Values read
from the excluded collaborators (PyVCF record properties such as `aaf`,
`num_called`, `heterozygosity`, and the `utils` statistics module) are
carried as fields of the record structures; the branching and arithmetic
performed on them in `dumpSTR.py` itself is translated directly.
-/

namespace DumpSTR

/-- A VCF per-call data value: either absent (`None` in Python), a string,
or an integer.  Rationals stand in for the float-typed attributes where
needed; call-level claims only inspect `GT`, `DP` and `FILTER`. -/
inductive Val where
  | vnull : Val
  | vstr : String → Val
  | vint : Int → Val
deriving DecidableEq, Repr

/-- One sample's call data at a locus: a map from FORMAT keys to values
(`sample[key]` in PyVCF). -/
abbrev CallData := String → Val

/-- A call-level filter from the `filters` collaborator module: `fails`
embeds `cfilt(sample) is not None` (true when the filter fires) and
`reason` embeds `cfilt.GetReason()`. -/
structure CallFilter where
  reason : String
  fails : CallData → Bool

/-- Embeds `FilterCall` (dumpSTR.py lines 140-154): walk `call_filters`
in order, collecting the reason of every failing filter.  The second
component instruments the control flow: it records the reason of every
filter that was evaluated (the Python `for` loop has no break, so it
always lists all registered filters). -/
def FilterCall (call_filters : List CallFilter) (data : CallData) :
    List String × List String :=
  match call_filters with
  | [] => ([], [])
  | cf :: rest =>
    let r := FilterCall rest data
    (if cf.fails data then cf.reason :: r.1 else r.1, cf.reason :: r.2)

/-- The per-sample entry of the `sample_info` dictionary:
`numcalls`, `totaldp`, and one counter per failure-reason name. -/
structure SampleInfo where
  numcalls : Nat
  totaldp : Int
  counts : String → Nat

/-- `d[r] += 1` on a counter table. -/
def bumpOne (c : String → Nat) (r : String) : String → Nat :=
  fun k => if k = r then c k + 1 else c k

/-- Embeds `for r in filter_reasons: sample_info[sample.sample][r] += 1`. -/
def bumpAll (c : String → Nat) : List String → (String → Nat)
  | [] => c
  | r :: rs => bumpAll (bumpOne c r) rs

/-- Embeds the genotype-missing test of dumpSTR.py line 187:
`sample['GT'] is None or sample['GT'] == "./." or sample['GT'] == "."`. -/
def missingGT (data : CallData) : Bool :=
  data "GT" == Val.vnull || data "GT" == Val.vstr "./." || data "GT" == Val.vstr "."

/-- The `DP` attribute as an integer.  Python raises on a non-integer
`sample["DP"]`; the `0` default is never reached under the hypotheses of
the theorems below, which fix `data "DP" = Val.vint d`. -/
def dpInt (v : Val) : Int :=
  match v with
  | Val.vint n => n
  | _ => 0

/-- Embeds the per-sample body of `ApplyCallFilters` (dumpSTR.py lines
185-215) for one sample: returns the rewritten call (one `(key, value)`
pair per FORMAT field, in field order), the updated `sample_info` entry,
and — as control-flow instrumentation — the reasons of the call filters
that were evaluated for this sample (empty in the missing-genotype branch,
which `continue`s before `FilterCall`). -/
def ApplyCallFiltersSample (fields : List String) (call_filters : List CallFilter)
    (data : CallData) (info : SampleInfo) :
    List (String × Val) × SampleInfo × List String :=
  if missingGT data then
    (fields.map fun k => (k, if k = "FILTER" then Val.vstr "NOCALL" else data k),
     info, [])
  else
    let reasons := (FilterCall call_filters data).1
    if reasons.length > 0 then
      (fields.map fun k =>
        (k, if k = "GT" then Val.vstr "./."
            else if k = "FILTER" then Val.vstr (String.intercalate "," reasons)
            else Val.vnull),
       { info with counts := bumpAll info.counts reasons },
       (FilterCall call_filters data).2)
    else
      (fields.map fun k => (k, if k = "FILTER" then Val.vstr "PASS" else data k),
       { info with numcalls := info.numcalls + 1,
                   totaldp := info.totaldp + dpInt (data "DP") },
       (FilterCall call_filters data).2)

/-- One (possibly call-filtered) locus record as seen by the locus-filter
stage and the INFO recomputation of `main`.  Fields `aaf`, `numCalled`,
`heterozygosity` embed the PyVCF properties `record.aaf`,
`record.num_called`, `record.heterozygosity`; `lengthHet`, `hwe`, `hrun`
embed the returns of the excluded `utils` collaborators
(`GetLengthHet(record)`, `GetSTRHWE(record, uselength)` for the run's
configured flag, `GetHomopolymerRun(record.REF)`).  `chrom`/`pos` locate
the record for region filters; `numAlt` is `len(record.ALT)`. -/
structure LocusRecord where
  chrom : String
  pos : Nat
  numAlt : Nat
  aaf : List Rat
  numCalled : Nat
  heterozygosity : Rat
  lengthHet : Rat
  hwe : Rat
  hrun : Nat

/-- A locus-level filter: `name` embeds `filt.filter_name()` and `fails`
embeds `filt(record) is not None` (true when the filter fires). -/
structure LocusFilter where
  name : String
  fails : LocusRecord → Bool

/-- The `loc_info` dictionary: a counter per key, with the special keys
`"PASS"` and `"totalcalls"` sharing the same table as the per-filter-name
fail counters, exactly as in the Python dictionary. -/
abbrev LocInfo := String → Nat

/-- `loc_info` as initialized in `main` lines 338-339: every key starts
at zero. -/
def zeroLocInfo : LocInfo := fun _ => 0

/-- `loc_info[k] += v`. -/
def bumpLoc (info : LocInfo) (k : String) (v : Nat) : LocInfo :=
  fun n => if n = k then info n + v else info n

/-- Embeds the locus-filter loop of `main` (dumpSTR.py lines 351-358).
Returns `(output_record, added, evaluated, loc_info)` where `added` lists
the names passed to `record.add_filter` in order and `evaluated`
instruments which filters were called (`filt(record)`) before the loop
ended: a drop-mode `break` stops both evaluation and counting. -/
def locusFilterLoop (dropFiltered : Bool) (rec : LocusRecord) :
    List LocusFilter → LocInfo → Bool × List String × List String × LocInfo
  | [], info => (true, [], [], info)
  | f :: fs, info =>
    if f.fails rec = false then
      let r := locusFilterLoop dropFiltered rec fs info
      (r.1, r.2.1, f.name :: r.2.2.1, r.2.2.2)
    else if dropFiltered then (false, [], [f.name], info)
    else
      let r := locusFilterLoop dropFiltered rec fs (bumpLoc info f.name 1)
      (r.1, f.name :: r.2.1, f.name :: r.2.2.1, r.2.2.2)

/-- Python `int()` applied to an exact rational: truncation toward zero. -/
def pyTrunc (q : Rat) : Int :=
  if q < 0 then -(((q.num.natAbs / q.den : Nat) : Int))
  else ((q.num.natAbs / q.den : Nat) : Int)

/-- The recomputed locus-level INFO fields. -/
structure InfoFields where
  hrun : Nat
  het : Rat
  hwep : Rat
  ac : List Int
  refac : Int
deriving DecidableEq, Repr

/-- Embeds the INFO recomputation of `main` (dumpSTR.py lines 361-373):
`HRUN` always; with `num_called > 0`, `HET` from the length-collapsed or
allele-based heterozygosity, `HWEP` from the collaborator, and the allele
counts `AC` / `REFAC` via Python `int()` truncation of
`freq * (2 * num_called)`; with zero completed calls, the sentinels. -/
def recalcInfo (useLength : Bool) (rec : LocusRecord) : InfoFields :=
  { hrun := rec.hrun
    het := if 0 < rec.numCalled then
             (if useLength then rec.lengthHet else rec.heterozygosity)
           else -1
    hwep := if 0 < rec.numCalled then rec.hwe else -1
    ac := if 0 < rec.numCalled then
            rec.aaf.map (fun x => pyTrunc (x * (2 * (rec.numCalled : Rat))))
          else List.replicate rec.numAlt 0
    refac := if 0 < rec.numCalled then
               pyTrunc ((1 - rec.aaf.sum) * (2 * (rec.numCalled : Rat)))
             else 0 }

/-- The locus-level FILTER column of an emitted record: `record.FILTER`
is reset to `None` (`unset`) before the loop, becomes the list of added
names after `record.add_filter` calls, or the string `"PASS"`. -/
inductive LocStatus where
  | unset : LocStatus
  | pass : LocStatus
  | fails : List String → LocStatus
deriving DecidableEq, Repr

/-- An emitted record: its FILTER status and recomputed INFO fields. -/
structure OutRecord where
  status : LocStatus
  info : InfoFields
deriving DecidableEq, Repr

/-- Embeds the per-record locus-stage body of `main` (dumpSTR.py lines
350-380): run the locus-filter loop, and if the record is to be output,
recompute INFO fields and apply the `PASS` accounting
(`record.FILTER is None and not args.drop_filtered`).  Returns the
emitted record (if any), the instrumented list of evaluated filter
names, and the updated `loc_info`. -/
def processRecord (dropFiltered useLength : Bool) (filter_list : List LocusFilter)
    (rec : LocusRecord) (info : LocInfo) :
    Option OutRecord × List String × LocInfo :=
  let r := locusFilterLoop dropFiltered rec filter_list info
  if r.1 then
    let inf := recalcInfo useLength rec
    if r.2.1 = [] ∧ dropFiltered = false then
      (some { status := LocStatus.pass, info := inf }, r.2.2.1,
       bumpLoc (bumpLoc r.2.2.2 "PASS" 1) "totalcalls" rec.numCalled)
    else
      (some { status := if r.2.1 = [] then LocStatus.unset
                        else LocStatus.fails r.2.1,
              info := inf }, r.2.2.1, r.2.2.2)
  else (none, r.2.2.1, r.2.2.2)

/-- Embeds the record loop of `main` (dumpSTR.py lines 343-380) at the
locus level: process each record in order, threading `loc_info`, and
collect the emitted records. -/
def runRecords (dropFiltered useLength : Bool) (filter_list : List LocusFilter) :
    List LocusRecord → LocInfo → List OutRecord × LocInfo
  | [], info => ([], info)
  | rec :: rest, info =>
    let r := processRecord dropFiltered useLength filter_list rec info
    let rs := runRecords dropFiltered useLength filter_list rest r.2.2
    (match r.1 with
     | some o => o :: rs.1
     | none => rs.1, rs.2)

/-- Embeds the `MeanSamplesPerPassingSTR` computation of `WriteLocLog`
(dumpSTR.py lines 97-99): zero when the `PASS` counter is zero, else
`totalcalls / PASS`. -/
def MeanSamplesPerPassingSTR (info : LocInfo) : Rat :=
  if info "PASS" = 0 then 0
  else (info "totalcalls" : Rat) / (info "PASS" : Rat)

/-- A coordinate interval of a region set: chromosome, start, end. -/
structure Interval where
  chrom : String
  start : Nat
  stop : Nat
deriving DecidableEq, Repr

/-- Modelled from the spec: `filters.create_region_filter(name, file)` of
the excluded `filters` collaborator builds a locus filter carrying the
user-supplied `name` that fires exactly when the locus overlaps one of
the named region set's coordinate intervals (§4.2 Region Index query). -/
def createRegionFilter (name : String) (ivs : List Interval) : LocusFilter :=
  { name := name
    fails := fun rec =>
      ivs.any fun iv =>
        iv.chrom == rec.chrom && iv.start ≤ rec.pos && rec.pos < iv.stop }

/-- Embeds the region-filter branch of `BuildLocusFilters` (dumpSTR.py
lines 263-271): `env` stands for reading a BED file's intervals (file
I/O collaborator); with user-supplied names, only the list lengths are
checked against each other; without, sets are auto-numbered `0..k-1`. -/
def buildRegionFilters (env : String → List Interval) (files : List String)
    (names : Option (List String)) : Except String (List LocusFilter) :=
  match names with
  | some ns =>
    if ns.length ≠ files.length then
      Except.error "length of --filter-regions-names must match --filter-regions"
    else
      Except.ok ((ns.zip files).map fun p => createRegionFilter p.1 (env p.2))
  | none =>
    Except.ok ((files.enum).map fun p => createRegionFilter (toString p.1) (env p.2))

/-- The names of the locus filters that fire on a record, in registration
order: what annotate mode appends to `record.FILTER` and counts. -/
def failedNames (fl : List LocusFilter) (rec : LocusRecord) : List String :=
  (fl.filter fun f => f.fails rec).map LocusFilter.name

/-! ### Concrete example inputs used by witnesses -/

/-- A call with genotype missing (`None`) and a coverage attribute of 7. -/
def exDataMissing : CallData :=
  fun k => if k = "DP" then Val.vint 7 else Val.vnull

/-- A called genotype with coverage 5 (first sample of the spec scenario). -/
def exData5 : CallData :=
  fun k => if k = "GT" then Val.vstr "0/0"
           else if k = "DP" then Val.vint 5 else Val.vnull

/-- A called genotype with coverage 20 (second sample of the spec scenario). -/
def exData20 : CallData :=
  fun k => if k = "GT" then Val.vstr "0/0"
           else if k = "DP" then Val.vint 20 else Val.vnull

/-- A fresh `sample_info` entry, as initialized in `main` lines 332-335. -/
def exInfo : SampleInfo :=
  { numcalls := 0, totaldp := 0, counts := fun _ => 0 }

/-- The `LowCallDepth` call filter at threshold `--min-call-DP 10`. -/
def exLowDP : CallFilter :=
  { reason := "LowCallDepth", fails := fun data => decide (dpInt (data "DP") < 10) }

/-- A locus with four completed calls out of an implied larger cohort. -/
def exRec : LocusRecord :=
  { chrom := "chr1", pos := 100, numAlt := 1, aaf := [1/2], numCalled := 4,
    heterozygosity := 1/2, lengthHet := 1/2, hwe := 1, hrun := 3 }

/-- A locus at which every sample's call was removed: zero completed calls. -/
def exRecZero : LocusRecord :=
  { chrom := "chr1", pos := 100, numAlt := 2, aaf := [], numCalled := 0,
    heterozygosity := 0, lengthHet := 0, hwe := 0, hrun := 3 }

/-- A locus with ten completed calls, passing the example callrate filter. -/
def exRecPass : LocusRecord :=
  { chrom := "chr1", pos := 100, numAlt := 1, aaf := [1/2], numCalled := 10,
    heterozygosity := 1/2, lengthHet := 1/2, hwe := 1, hrun := 3 }

/-- A locus whose collaborator-computed alternate allele frequency (3/10)
is not an exact multiple of `1/(2 * num_called)`: exactly the shape float
division produces, on which truncation makes the allele counts fail to
sum to `2 * num_called`. -/
def exRecMismatch : LocusRecord :=
  { chrom := "chr1", pos := 100, numAlt := 1, aaf := [3/10], numCalled := 3,
    heterozygosity := 1/2, lengthHet := 1/2, hwe := 1, hrun := 3 }

/-- The `MinLocusCallrate` locus filter for a cohort where fewer than
eight completed calls miss the configured callrate. -/
def exCallrate : LocusFilter :=
  { name := "MinLocusCallrate", fails := fun rec => decide (rec.numCalled < 8) }

/-- A second configured locus filter (a heterozygosity bound). -/
def exMinHet : LocusFilter :=
  { name := "HET", fails := fun rec => decide (rec.heterozygosity < 1/4) }

/-- BED contents for two region files whose intervals both cover
`chr1:100` (stands for the file-reading collaborator). -/
def envDup : String → List Interval :=
  fun f => if f = "a.bed" then [{ chrom := "chr1", start := 0, stop := 1000 }]
           else [{ chrom := "chr1", start := 50, stop := 200 }]

/-! ### Supporting lemmas -/

theorem FilterCall_evaluated (cfs : List CallFilter) (data : CallData) :
    (FilterCall cfs data).2 = cfs.map CallFilter.reason := by
  induction cfs with
  | nil => rfl
  | cons cf rest ih => simp [FilterCall, ih]

theorem FilterCall_reasons_sublist (cfs : List CallFilter) (data : CallData) :
    (FilterCall cfs data).1.Sublist (cfs.map CallFilter.reason) := by
  induction cfs with
  | nil => simp [FilterCall]
  | cons cf rest ih =>
    simp only [FilterCall, List.map_cons]
    by_cases h : cf.fails data
    · simpa [h] using ih.cons₂ cf.reason
    · simpa [h] using ih.cons cf.reason

theorem bumpAll_count (rs : List String) : ∀ (c : String → Nat) (k : String),
    bumpAll c rs k = c k + rs.count k := by
  induction rs with
  | nil => intro c k; simp [bumpAll]
  | cons r rs ih =>
    intro c k
    rw [bumpAll, ih, List.count_cons]
    simp only [bumpOne]
    by_cases h : k = r
    · simp [h]; omega
    · simp [h]; exact fun e => h e.symm

theorem count_eq_ite_of_nodup (l : List String) (hnd : l.Nodup) (a : String) :
    l.count a = if a ∈ l then 1 else 0 := by
  by_cases h : a ∈ l
  · simp [h, List.count_eq_one_of_mem hnd h]
  · simp [h, List.count_eq_zero.mpr h]

theorem bumpLoc_one (info : LocInfo) (k : String) :
    bumpLoc info k 1 = bumpOne info k := rfl

theorem locusFilterLoop_annotate (rec : LocusRecord) (fs : List LocusFilter) :
    ∀ info : LocInfo,
    locusFilterLoop false rec fs info =
      (true, failedNames fs rec, fs.map LocusFilter.name,
       bumpAll info (failedNames fs rec)) := by
  induction fs with
  | nil => intro info; rfl
  | cons f fs ih =>
    intro info
    by_cases h : f.fails rec
    · simp [locusFilterLoop, h, ih, failedNames, bumpAll, bumpLoc_one]
    · simp [locusFilterLoop, h, ih, failedNames]

theorem locusFilterLoop_drop_state (rec : LocusRecord) (fs : List LocusFilter) :
    ∀ info : LocInfo,
    (locusFilterLoop true rec fs info).2.1 = []
    ∧ (locusFilterLoop true rec fs info).2.2.2 = info := by
  induction fs with
  | nil => intro info; exact ⟨rfl, rfl⟩
  | cons f fs ih =>
    intro info
    by_cases h : f.fails rec
    · simp [locusFilterLoop, h]
    · simp [locusFilterLoop, h, ih]

theorem locusFilterLoop_drop_allpass (rec : LocusRecord) (fs : List LocusFilter)
    (h : ∀ f ∈ fs, f.fails rec = false) : ∀ info : LocInfo,
    locusFilterLoop true rec fs info = (true, [], fs.map LocusFilter.name, info) := by
  induction fs with
  | nil => intro info; rfl
  | cons f fs ih =>
    intro info
    have hf : f.fails rec = false := h f (by simp)
    simp [locusFilterLoop, hf, ih (fun x hx => h x (by simp [hx]))]

theorem locusFilterLoop_drop_firstfail (rec : LocusRecord) (pre : List LocusFilter)
    (f : LocusFilter) (post : List LocusFilter)
    (hpre : ∀ g ∈ pre, g.fails rec = false) (hf : f.fails rec = true) :
    ∀ info : LocInfo,
    locusFilterLoop true rec (pre ++ f :: post) info =
      (false, [], pre.map LocusFilter.name ++ [f.name], info) := by
  induction pre with
  | nil => intro info; simp [locusFilterLoop, hf]
  | cons g pre ih =>
    intro info
    have hg : g.fails rec = false := hpre g (by simp)
    simp [locusFilterLoop, hg, ih (fun x hx => hpre x (by simp [hx]))]

theorem processRecord_annotate (ul : Bool) (fl : List LocusFilter)
    (rec : LocusRecord) (info : LocInfo) :
    processRecord false ul fl rec info =
      if failedNames fl rec = [] then
        (some { status := LocStatus.pass, info := recalcInfo ul rec },
         fl.map LocusFilter.name,
         bumpLoc (bumpLoc info "PASS" 1) "totalcalls" rec.numCalled)
      else
        (some { status := LocStatus.fails (failedNames fl rec),
                info := recalcInfo ul rec },
         fl.map LocusFilter.name, bumpAll info (failedNames fl rec)) := by
  by_cases h : failedNames fl rec = []
  · simp [processRecord, locusFilterLoop_annotate, h, bumpAll]
  · simp [processRecord, locusFilterLoop_annotate, h]

theorem processRecord_some_info (dropFiltered ul : Bool) (fl : List LocusFilter)
    (rec : LocusRecord) (info : LocInfo) (o : OutRecord)
    (ho : (processRecord dropFiltered ul fl rec info).1 = some o) :
    o.info = recalcInfo ul rec := by
  simp only [processRecord] at ho
  split at ho
  · split at ho
    · simp only [Option.some.injEq] at ho
      rw [← ho]
    · simp only [Option.some.injEq] at ho
      rw [← ho]
  · simp at ho

theorem processRecord_drop (ul : Bool) (fl : List LocusFilter)
    (rec : LocusRecord) (info : LocInfo) :
    (processRecord true ul fl rec info).2.2 = info
    ∧ ∀ o, (processRecord true ul fl rec info).1 = some o →
        o.status = LocStatus.unset := by
  have h := locusFilterLoop_drop_state rec fl info
  constructor
  · simp only [processRecord]
    split
    · rw [if_neg (by simp)]
      exact h.2
    · exact h.2
  · intro o ho
    simp only [processRecord] at ho
    split at ho
    · rw [if_neg (by simp)] at ho
      simp only [Option.some.injEq] at ho
      rw [← ho, h.1]
      rfl
    · simp at ho

theorem runRecords_drop (ul : Bool) (fl : List LocusFilter) (recs : List LocusRecord) :
    ∀ info : LocInfo, (runRecords true ul fl recs info).2 = info
    ∧ ∀ o ∈ (runRecords true ul fl recs info).1, o.status = LocStatus.unset := by
  induction recs with
  | nil => intro info; exact ⟨rfl, by simp [runRecords]⟩
  | cons rec rest ih =>
    intro info
    have hp := processRecord_drop ul fl rec info
    have ihr := ih (processRecord true ul fl rec info).2.2
    constructor
    · simp only [runRecords]
      rw [ihr.1, hp.1]
    · intro o ho
      simp only [runRecords] at ho
      revert ho
      cases hr : (processRecord true ul fl rec info).1 with
      | none => intro ho; exact ihr.2 o ho
      | some o2 =>
        intro ho
        rcases List.mem_cons.mp ho with h | h
        · rw [h]; exact hp.2 o2 hr
        · exact ihr.2 o h

theorem failedNames_mem_names (fl : List LocusFilter) (rec : LocusRecord) :
    ∀ x ∈ failedNames fl rec, x ∈ fl.map LocusFilter.name := by
  intro x hx
  simp only [failedNames, List.mem_map, List.mem_filter] at hx ⊢
  obtain ⟨f, ⟨hf, _⟩, hn⟩ := hx
  exact ⟨f, hf, hn⟩

theorem runRecords_annotate_pass (ul : Bool) (fl : List LocusFilter)
    (hp : "PASS" ∉ fl.map LocusFilter.name) (recs : List LocusRecord) :
    ∀ info : LocInfo, (runRecords false ul fl recs info).2 "PASS" =
      info "PASS" + recs.countP (fun r => (failedNames fl r).isEmpty) := by
  induction recs with
  | nil => intro info; simp [runRecords]
  | cons rec rest ih =>
    intro info
    have hone : (processRecord false ul fl rec info).2.2 "PASS" =
        info "PASS" + (if (failedNames fl rec).isEmpty then 1 else 0) := by
      rw [processRecord_annotate]
      by_cases h : failedNames fl rec = []
      · simp [h, bumpLoc]
      · have hm : "PASS" ∉ failedNames fl rec :=
          fun hmem => hp (failedNames_mem_names fl rec "PASS" hmem)
        simp [h, bumpAll_count, List.count_eq_zero.mpr hm,
          List.isEmpty_iff]
    simp only [runRecords]
    rw [ih, hone, List.countP_cons]
    by_cases hc : (failedNames fl rec).isEmpty <;> simp [hc] <;> omega

theorem pyTrunc_of_nonneg (q : Rat) (h : 0 ≤ q) : pyTrunc q = Int.floor q := by
  rw [pyTrunc, if_neg (not_lt.mpr h), Rat.floor_def, Int.ofNat_tdiv]
  rw [Int.tdiv_eq_ediv (Int.natCast_nonneg _) (Int.natCast_nonneg _)]
  congr 1
  exact Int.natAbs_of_nonneg (Rat.num_nonneg.mpr h)

theorem recalcInfo_mismatch (useLength : Bool) :
    (recalcInfo useLength exRecMismatch).refac = 4
    ∧ (recalcInfo useLength exRecMismatch).ac = [1] := by
  have t1 : pyTrunc (9/5 : Rat) = 1 := by
    rw [pyTrunc_of_nonneg _ (by norm_num)]
    norm_num [Int.floor_eq_iff]
  have t2 : pyTrunc (21/5 : Rat) = 4 := by
    rw [pyTrunc_of_nonneg _ (by norm_num)]
    norm_num [Int.floor_eq_iff]
  constructor
  · rw [show (recalcInfo useLength exRecMismatch).refac =
        pyTrunc ((1 - exRecMismatch.aaf.sum) * (2 * (exRecMismatch.numCalled : Rat)))
      from by simp [recalcInfo, exRecMismatch]]
    rw [show ((1:Rat) - exRecMismatch.aaf.sum) * (2 * (exRecMismatch.numCalled : Rat))
        = 21/5 from by norm_num [exRecMismatch]]
    exact t2
  · rw [show (recalcInfo useLength exRecMismatch).ac =
        [pyTrunc ((3/10 : Rat) * (2 * (exRecMismatch.numCalled : Rat)))]
      from by simp [recalcInfo, exRecMismatch]]
    rw [show ((3/10 : Rat)) * (2 * (exRecMismatch.numCalled : Rat)) = 9/5
      from by norm_num [exRecMismatch]]
    rw [t1]

/-! ### Call-level claims -/

/-- C5: for a call whose genotype is present, every registered call filter
is evaluated (no short-circuit); when at least one fails, the output
genotype is cleared to `./.`, each remaining attribute rewritten per the
failure branch, the per-reason counters each increase by exactly one for
every distinct firing reason, and `numcalls` / `totaldp` are unchanged. -/
theorem C5_call_fail_branch (fields : List String) (cfs : List CallFilter)
    (data : CallData) (info : SampleInfo)
    (hm : missingGT data = false)
    (hr : (FilterCall cfs data).1 ≠ [])
    (hnd : (cfs.map CallFilter.reason).Nodup) :
    (ApplyCallFiltersSample fields cfs data info).2.2 = cfs.map CallFilter.reason
    ∧ (ApplyCallFiltersSample fields cfs data info).1 =
        fields.map (fun k =>
          (k, if k = "GT" then Val.vstr "./."
              else if k = "FILTER" then
                Val.vstr (String.intercalate "," (FilterCall cfs data).1)
              else Val.vnull))
    ∧ (∀ r, ((ApplyCallFiltersSample fields cfs data info).2.1).counts r =
          info.counts r + if r ∈ (FilterCall cfs data).1 then 1 else 0)
    ∧ ((ApplyCallFiltersSample fields cfs data info).2.1).numcalls = info.numcalls
    ∧ ((ApplyCallFiltersSample fields cfs data info).2.1).totaldp = info.totaldp := by
  have hlen : 0 < (FilterCall cfs data).1.length := List.length_pos.mpr hr
  have hcnt : ∀ r, ((ApplyCallFiltersSample fields cfs data info).2.1).counts r =
      info.counts r + if r ∈ (FilterCall cfs data).1 then 1 else 0 := by
    intro r
    have hnd' : (FilterCall cfs data).1.Nodup :=
      (FilterCall_reasons_sublist cfs data).nodup hnd
    simp only [ApplyCallFiltersSample, hm, Bool.false_eq_true, if_false, hlen, if_pos]
    rw [bumpAll_count, count_eq_ite_of_nodup _ hnd']
  refine ⟨?_, ?_, hcnt, ?_, ?_⟩ <;>
    simp [ApplyCallFiltersSample, hm, hlen, FilterCall_evaluated]

/-- C5 witness: the first sample of the spec scenario (DP = 5 against
`--min-call-DP 10`) fires `LowCallDepth` and its counter goes to one. -/
theorem C5_call_fail_branch_witness :
    missingGT exData5 = false ∧ (FilterCall [exLowDP] exData5).1 ≠ []
    ∧ ([exLowDP].map CallFilter.reason).Nodup
    ∧ (((ApplyCallFiltersSample ["GT", "DP", "FILTER"] [exLowDP] exData5
          exInfo).2.1).counts "LowCallDepth" =
        exInfo.counts "LowCallDepth" + if "LowCallDepth" ∈ (FilterCall [exLowDP] exData5).1 then 1 else 0) :=
  ⟨by decide, by decide, by decide,
   (C5_call_fail_branch ["GT", "DP", "FILTER"] [exLowDP] exData5 exInfo
     (by decide) (by decide) (by decide)).2.2.1 "LowCallDepth"⟩

/-- C6: for a call whose genotype is present and for which no registered
call filter fails, the output keeps every original attribute, carries
`FILTER = PASS`, and the sample's `numcalls` rises by one and `totaldp`
by the call's `DP` attribute. -/
theorem C6_call_pass_branch (fields : List String) (cfs : List CallFilter)
    (data : CallData) (info : SampleInfo) (d : Int)
    (hm : missingGT data = false)
    (hr : (FilterCall cfs data).1 = [])
    (hd : data "DP" = Val.vint d) :
    ApplyCallFiltersSample fields cfs data info =
      (fields.map fun k => (k, if k = "FILTER" then Val.vstr "PASS" else data k),
       { info with numcalls := info.numcalls + 1, totaldp := info.totaldp + d },
       cfs.map CallFilter.reason) := by
  simp [ApplyCallFiltersSample, hm, hr, FilterCall_evaluated, hd, dpInt]

/-- C6 witness: the second sample of the spec scenario (DP = 20 against
`--min-call-DP 10`) passes and is counted with its depth. -/
theorem C6_call_pass_branch_witness :
    missingGT exData20 = false ∧ (FilterCall [exLowDP] exData20).1 = []
    ∧ exData20 "DP" = Val.vint 20
    ∧ ApplyCallFiltersSample ["GT", "DP", "FILTER"] [exLowDP] exData20 exInfo =
      (["GT", "DP", "FILTER"].map fun k =>
          (k, if k = "FILTER" then Val.vstr "PASS" else exData20 k),
       { exInfo with numcalls := exInfo.numcalls + 1, totaldp := exInfo.totaldp + 20 },
       [exLowDP].map CallFilter.reason) :=
  ⟨by decide, by decide, by decide,
   C6_call_pass_branch ["GT", "DP", "FILTER"] [exLowDP] exData20 exInfo 20
     (by decide) (by decide) (by decide)⟩

/-- C7 (amended): for a call whose genotype is missing on input, the
output call carries `FILTER = NOCALL`, no call filter is evaluated and no
sample statistics are updated; but the call is not cleared — every other
field, genotype included, is copied through unchanged from the input. -/
theorem C7_nocall_branch (fields : List String) (cfs : List CallFilter)
    (data : CallData) (info : SampleInfo) (hm : missingGT data = true) :
    ApplyCallFiltersSample fields cfs data info =
      (fields.map fun k => (k, if k = "FILTER" then Val.vstr "NOCALL" else data k),
       info, []) := by
  simp [ApplyCallFiltersSample, hm]

/-- C7 witness: a missing call with DP 7 is passed through with status
`NOCALL`, untouched statistics, and zero filters evaluated. -/
theorem C7_nocall_branch_witness :
    missingGT exDataMissing = true
    ∧ ApplyCallFiltersSample ["GT", "DP", "FILTER"] [exLowDP] exDataMissing exInfo =
      (["GT", "DP", "FILTER"].map fun k =>
        (k, if k = "FILTER" then Val.vstr "NOCALL" else exDataMissing k),
       exInfo, []) :=
  ⟨by decide,
   C7_nocall_branch ["GT", "DP", "FILTER"] [exLowDP] exDataMissing exInfo (by decide)⟩

/-- C7 counterexample: the claim says a missing-genotype call "is cleared
in the output".  On the concrete missing call with DP 7 the output keeps
`DP = 7`; the cleared value `null` does not appear for `DP`. -/
theorem C7_counterexample :
    (ApplyCallFiltersSample ["GT", "DP", "FILTER"] [] exDataMissing exInfo).1 =
      [("GT", Val.vnull), ("DP", Val.vint 7), ("FILTER", Val.vstr "NOCALL")]
    ∧ ("DP", Val.vnull) ∉
        (ApplyCallFiltersSample ["GT", "DP", "FILTER"] [] exDataMissing exInfo).1 := by
  constructor
  · decide
  · decide

/-- C10: for a call that fails at least one call filter, every per-call
attribute other than the genotype and the FILTER status is set to null
in the output. -/
theorem C10_attrs_nulled (fields : List String) (cfs : List CallFilter)
    (data : CallData) (info : SampleInfo)
    (hm : missingGT data = false)
    (hr : (FilterCall cfs data).1 ≠ []) :
    ∀ k ∈ fields, k ≠ "GT" → k ≠ "FILTER" →
      (k, Val.vnull) ∈ (ApplyCallFiltersSample fields cfs data info).1 := by
  intro k hk hg hf
  have hlen : 0 < (FilterCall cfs data).1.length := List.length_pos.mpr hr
  simp only [ApplyCallFiltersSample, hm, Bool.false_eq_true, if_false, hlen, if_pos,
    List.mem_map]
  exact ⟨k, hk, by simp [hg, hf]⟩

/-- C10 witness: the failing DP = 5 call has its `Q` attribute nulled. -/
theorem C10_attrs_nulled_witness :
    missingGT exData5 = false ∧ (FilterCall [exLowDP] exData5).1 ≠ []
    ∧ ("Q", Val.vnull) ∈
        (ApplyCallFiltersSample ["GT", "DP", "Q", "FILTER"] [exLowDP] exData5 exInfo).1 :=
  ⟨by decide, by decide,
   C10_attrs_nulled ["GT", "DP", "Q", "FILTER"] [exLowDP] exData5 exInfo
     (by decide) (by decide) "Q" (by decide) (by decide) (by decide)⟩

/-! ### Locus-level claims -/

/-- C1: in drop-filtered mode, at a locus where a filter fails, the first
failing filter in registration order excludes the locus (no record
emitted), exactly the filters up to and including it are evaluated, and
`loc_info` — the `PASS` counter and every fail counter included — is
completely untouched. -/
theorem C1_drop_first_fail (useLength : Bool) (pre post : List LocusFilter)
    (f : LocusFilter) (rec : LocusRecord) (info : LocInfo)
    (hpre : ∀ g ∈ pre, g.fails rec = false) (hf : f.fails rec = true) :
    processRecord true useLength (pre ++ f :: post) rec info =
      (none, pre.map LocusFilter.name ++ [f.name], info) := by
  simp [processRecord, locusFilterLoop_drop_firstfail rec pre f post hpre hf]

/-- C1 witness: with `MinLocusCallrate` failing first of two configured
locus filters, the locus is dropped, the second filter (`HET`) is not
evaluated, and no counter moves. -/
theorem C1_drop_first_fail_witness :
    (∀ g ∈ ([] : List LocusFilter), g.fails exRec = false)
    ∧ exCallrate.fails exRec = true
    ∧ processRecord true false ([] ++ exCallrate :: [exMinHet]) exRec zeroLocInfo =
        (none, [] ++ [exCallrate.name], zeroLocInfo) :=
  ⟨by simp, by decide,
   C1_drop_first_fail false [] [exMinHet] exCallrate exRec zeroLocInfo
     (by simp) (by decide)⟩

/-- C8: a retained locus with zero completed calls is emitted with the
sentinels `HET = -1` and `HWEP = -1`; the condition does not abort the
stream — the run over `rec :: rest` emits this record and continues with
the remaining records unchanged. -/
theorem C8_zero_calls_sentinels (dropFiltered useLength : Bool)
    (fl : List LocusFilter) (rec : LocusRecord) (info : LocInfo)
    (o : OutRecord) (rest : List LocusRecord)
    (h0 : rec.numCalled = 0)
    (ho : (processRecord dropFiltered useLength fl rec info).1 = some o) :
    o.info.het = -1 ∧ o.info.hwep = -1
    ∧ (runRecords dropFiltered useLength fl (rec :: rest) info).1 =
        o :: (runRecords dropFiltered useLength fl rest
          (processRecord dropFiltered useLength fl rec info).2.2).1 := by
  have hi := processRecord_some_info dropFiltered useLength fl rec info o ho
  refine ⟨?_, ?_, ?_⟩
  · rw [hi]; simp [recalcInfo, h0]
  · rw [hi]; simp [recalcInfo, h0]
  · simp only [runRecords]
    rw [ho]

/-- C8 witness: a zero-call locus processed with no configured locus
filters in annotate mode is emitted with both sentinels. -/
theorem C8_zero_calls_sentinels_witness :
    exRecZero.numCalled = 0
    ∧ (processRecord false false [] exRecZero zeroLocInfo).1 =
        some { status := LocStatus.pass, info := recalcInfo false exRecZero }
    ∧ ({ status := LocStatus.pass, info := recalcInfo false exRecZero } :
        OutRecord).info.het = -1 :=
  ⟨rfl, by decide,
   (C8_zero_calls_sentinels false false [] exRecZero zeroLocInfo
     { status := LocStatus.pass, info := recalcInfo false exRecZero } []
     rfl (by decide)).1⟩

/-- C9: in drop-filtered mode a locus passing every locus filter is
emitted with its FILTER column left unset (never `PASS`); `loc_info` is
never written during the whole run, so the `PASS` and `totalcalls`
counters end at zero and the locus log reports
`MeanSamplesPerPassingSTR = 0`. -/
theorem C9_drop_mode_no_pass (useLength : Bool) (fl : List LocusFilter)
    (recs : List LocusRecord) :
    (∀ rec info, (∀ f ∈ fl, f.fails rec = false) →
      processRecord true useLength fl rec info =
        (some { status := LocStatus.unset, info := recalcInfo useLength rec },
         fl.map LocusFilter.name, info))
    ∧ (∀ o ∈ (runRecords true useLength fl recs zeroLocInfo).1,
        o.status = LocStatus.unset)
    ∧ (runRecords true useLength fl recs zeroLocInfo).2 "PASS" = 0
    ∧ (runRecords true useLength fl recs zeroLocInfo).2 "totalcalls" = 0
    ∧ MeanSamplesPerPassingSTR (runRecords true useLength fl recs zeroLocInfo).2
        = 0 := by
  have hd := runRecords_drop useLength fl recs zeroLocInfo
  refine ⟨?_, hd.2, ?_, ?_, ?_⟩
  · intro rec info hall
    simp [processRecord, locusFilterLoop_drop_allpass rec fl hall]
  · rw [hd.1]; rfl
  · rw [hd.1]; rfl
  · rw [hd.1]; rfl

/-- C9 witness: a passing locus in drop mode is emitted unset, and the
one-record run reports a zero mean. -/
theorem C9_drop_mode_no_pass_witness :
    (∀ f ∈ [exCallrate], f.fails exRecPass = false)
    ∧ processRecord true false [exCallrate] exRecPass zeroLocInfo =
        (some { status := LocStatus.unset, info := recalcInfo false exRecPass },
         [exCallrate].map LocusFilter.name, zeroLocInfo)
    ∧ MeanSamplesPerPassingSTR
        (runRecords true false [exCallrate] [exRecPass] zeroLocInfo).2 = 0 :=
  ⟨by decide,
   (C9_drop_mode_no_pass false [exCallrate] [exRecPass]).1 exRecPass zeroLocInfo
     (by decide),
   (C9_drop_mode_no_pass false [exCallrate] [exRecPass]).2.2.2.2⟩

/-- C2: for a retained locus with at least one completed call, each
emitted `AC` entry is the alternate allele frequency times `2 *
num_called` truncated toward zero, and `REFAC` is `(1 - Σ freq) * 2 *
num_called` truncated the same way, computed independently of the `AC`
values; consequently there is an input on which `REFAC` plus the sum of
`AC` differs from `2 * num_called`. -/
theorem C2_allele_counts (dropFiltered useLength : Bool) (fl : List LocusFilter)
    (rec : LocusRecord) (info : LocInfo) (o : OutRecord)
    (h0 : 0 < rec.numCalled)
    (ho : (processRecord dropFiltered useLength fl rec info).1 = some o) :
    o.info.ac = rec.aaf.map (fun x => pyTrunc (x * (2 * (rec.numCalled : Rat))))
    ∧ o.info.refac = pyTrunc ((1 - rec.aaf.sum) * (2 * (rec.numCalled : Rat)))
    ∧ ∃ rec2 : LocusRecord, 0 < rec2.numCalled ∧
        (recalcInfo useLength rec2).refac + ((recalcInfo useLength rec2).ac).sum ≠
          2 * (rec2.numCalled : Int) := by
  have hi := processRecord_some_info dropFiltered useLength fl rec info o ho
  refine ⟨?_, ?_, exRecMismatch, by decide, ?_⟩
  · rw [hi]; simp [recalcInfo, h0]
  · rw [hi]; simp [recalcInfo, h0]
  · rw [(recalcInfo_mismatch useLength).1, (recalcInfo_mismatch useLength).2]
    decide

/-- C2 witness: the mismatch locus (`aaf = 3/10`, three completed calls)
is retained in annotate mode with no filters and carries the truncated
counts. -/
theorem C2_allele_counts_witness :
    0 < exRecMismatch.numCalled
    ∧ (processRecord false false [] exRecMismatch zeroLocInfo).1 =
        some { status := LocStatus.pass, info := recalcInfo false exRecMismatch }
    ∧ ({ status := LocStatus.pass, info := recalcInfo false exRecMismatch } :
        OutRecord).info.ac =
        exRecMismatch.aaf.map
          (fun x => pyTrunc (x * (2 * (exRecMismatch.numCalled : Rat)))) :=
  ⟨by decide, rfl,
   (C2_allele_counts false false [] exRecMismatch zeroLocInfo
     { status := LocStatus.pass, info := recalcInfo false exRecMismatch }
     (by decide) rfl).1⟩

/-- C3 (amended): a locus-filter fail counter is incremented at most once
per processed locus provided the registered locus-filter names are
pairwise distinct; with duplicate user-supplied region-filter names, the
shared counter can be incremented once per duplicate filter (see the
counterexample). -/
theorem C3_counter_once (dropFiltered useLength : Bool) (fl : List LocusFilter)
    (rec : LocusRecord) (info : LocInfo) (n : String)
    (hnd : (fl.map LocusFilter.name).Nodup)
    (hnp : n ≠ "PASS") (hnt : n ≠ "totalcalls") :
    (processRecord dropFiltered useLength fl rec info).2.2 n ≤ info n + 1 := by
  cases dropFiltered with
  | true =>
    rw [(processRecord_drop useLength fl rec info).1]
    omega
  | false =>
    rw [processRecord_annotate]
    split
    · simp only [bumpLoc, hnp, hnt, if_false]
      omega
    · have hsub : (failedNames fl rec).Sublist (fl.map LocusFilter.name) :=
        List.Sublist.map LocusFilter.name (List.filter_sublist fl)
      have hnd2 : (failedNames fl rec).Nodup := hsub.nodup hnd
      have hc := count_eq_ite_of_nodup _ hnd2 n
      show bumpAll info (failedNames fl rec) n ≤ info n + 1
      rw [bumpAll_count, hc]
      split <;> omega

/-- C3 witness: with the single distinctly named callrate filter, the
fail counter of a failing locus moves from zero to at most one. -/
theorem C3_counter_once_witness :
    ([exCallrate].map LocusFilter.name).Nodup
    ∧ "MinLocusCallrate" ≠ "PASS" ∧ "MinLocusCallrate" ≠ "totalcalls"
    ∧ (processRecord false false [exCallrate] exRec zeroLocInfo).2.2
        "MinLocusCallrate" ≤ zeroLocInfo "MinLocusCallrate" + 1 :=
  ⟨by decide, by decide, by decide,
   C3_counter_once false false [exCallrate] exRec zeroLocInfo "MinLocusCallrate"
     (by decide) (by decide) (by decide)⟩

/-- C3 counterexample: `BuildLocusFilters` accepts the user-supplied
region names `DUP,DUP` (only list lengths are checked), and on a locus
overlapping both region sets the single `loc_info` entry `"DUP"` is
incremented twice while processing that one locus — from zero to two. -/
theorem C3_counterexample :
    (buildRegionFilters envDup ["a.bed", "b.bed"] (some ["DUP", "DUP"])).map
        (fun fl => (processRecord false false fl exRec zeroLocInfo).2.2 "DUP")
      = Except.ok 2
    ∧ zeroLocInfo "DUP" = 0 := by
  constructor
  · rfl
  · rfl

/-- C4: in annotate mode every registered locus filter is evaluated for
every locus; each failing filter's name is appended to the locus FILTER
status and its fail counter incremented; a locus with no failing filter
is marked `PASS`, the `PASS` counter rises by one and `totalcalls` by the
locus's completed-call count; hence over a run, `PASS` plus the number of
loci with at least one failing filter equals the number of loci
processed.  (The filter names must avoid the reserved `loc_info` key
`"PASS"`, with which the code shares one dictionary.) -/
theorem C4_annotate_accounting (useLength : Bool) (fl : List LocusFilter)
    (hp : "PASS" ∉ fl.map LocusFilter.name) :
    (∀ rec info, (processRecord false useLength fl rec info).2.1 =
        fl.map LocusFilter.name)
    ∧ (∀ rec info o, (processRecord false useLength fl rec info).1 = some o →
        o.status = if failedNames fl rec = [] then LocStatus.pass
                   else LocStatus.fails (failedNames fl rec))
    ∧ (∀ rec info n, n ∈ failedNames fl rec →
        (processRecord false useLength fl rec info).2.2 n =
          info n + (failedNames fl rec).count n)
    ∧ (∀ rec info, failedNames fl rec = [] →
        (processRecord false useLength fl rec info).2.2 "PASS" = info "PASS" + 1
        ∧ (processRecord false useLength fl rec info).2.2 "totalcalls" =
            info "totalcalls" + rec.numCalled)
    ∧ (∀ recs : List LocusRecord,
        (runRecords false useLength fl recs zeroLocInfo).2 "PASS"
          + recs.countP (fun r => !(failedNames fl r).isEmpty) = recs.length) := by
  refine ⟨?_, ?_, ?_, ?_, ?_⟩
  · intro rec info
    rw [processRecord_annotate]
    split <;> rfl
  · intro rec info o ho
    rw [processRecord_annotate] at ho
    by_cases h : failedNames fl rec = []
    · rw [if_pos h] at ho
      simp only [Option.some.injEq] at ho
      rw [← ho, if_pos h]
    · rw [if_neg h] at ho
      simp only [Option.some.injEq] at ho
      rw [← ho, if_neg h]
  · intro rec info n hn
    have h : failedNames fl rec ≠ [] := by
      intro he
      rw [he] at hn
      exact List.not_mem_nil n hn
    rw [processRecord_annotate, if_neg h]
    exact bumpAll_count _ _ _
  · intro rec info h
    rw [processRecord_annotate, if_pos h]
    constructor
    · show bumpLoc (bumpLoc info "PASS" 1) "totalcalls" rec.numCalled "PASS" =
        info "PASS" + 1
      simp [bumpLoc]
    · show bumpLoc (bumpLoc info "PASS" 1) "totalcalls" rec.numCalled "totalcalls" =
        info "totalcalls" + rec.numCalled
      simp [bumpLoc]
  · intro recs
    rw [runRecords_annotate_pass useLength fl hp recs zeroLocInfo]
    show 0 + recs.countP _ + recs.countP _ = recs.length
    have hfun : (fun r : LocusRecord => !(failedNames fl r).isEmpty) =
        (fun a : LocusRecord => decide (¬ (failedNames fl a).isEmpty = true)) := by
      funext r
      by_cases h : (failedNames fl r).isEmpty <;> simp [h]
    rw [Nat.zero_add, hfun, ← List.length_eq_countP_add_countP
      (fun r => (failedNames fl r).isEmpty) recs]

/-- C4 witness: one callrate filter, one failing and one passing locus:
`PASS = 1` plus one failing locus equals two loci processed. -/
theorem C4_annotate_accounting_witness :
    "PASS" ∉ [exCallrate].map LocusFilter.name
    ∧ (runRecords false false [exCallrate] [exRec, exRecPass] zeroLocInfo).2 "PASS"
        + [exRec, exRecPass].countP (fun r => !(failedNames [exCallrate] r).isEmpty)
        = ([exRec, exRecPass] : List LocusRecord).length :=
  ⟨by decide,
   (C4_annotate_accounting false [exCallrate] (by decide)).2.2.2.2
     [exRec, exRecPass]⟩

end DumpSTR
